import Mathlib

/-!
Shallow embedding of the vector-store backends of `src/app/connections.py`
(project: Python_Tokenizer / Vectorizer).

The file models the two `VectorStore` implementations:

* `MongoVectorStore` — the exact-scan backend: documents in a collection,
  similarity search is a full scan computing cosine similarity in the
  caller, followed by a stable descending sort and truncation to `top_k`.
* `RedisVectorStore` — the ANN backend: hash records under a key pattern,
  search delegated to the engine's KNN query (sorted by cosine distance
  ascending), with the adapter converting distance to similarity via
  `1 - distance`.

Embeddings are sequences of reals; floating-point rounding is out of scope
(the spec itself only demands agreement "within floating tolerance", which
an exact model realises as equality).  External collaborators (pymongo's
`insert_many`, the Redis FT.SEARCH engine, FT.INFO / FT.CREATE) are
modelled explicitly and marked as such; wall-clock fields (`created_at`)
are omitted as they carry no specified behaviour.
-/

namespace Vectorizer

/-! ## Data model -/

/-- File types handled by the pipeline: the fixed enumeration used by both
backends (`['pdf', 'txt', 'docx']` in `get_statistics`). -/
inductive FileType
  | pdf
  | txt
  | docx
deriving DecidableEq, Repr

/-- A chunk as produced by extraction and consumed by `store_embeddings`:
`text`, optional `page_number`, `chunk_index`, `source`, `file_type`. -/
structure Chunk where
  text : String
  page_number : Option Int
  chunk_index : Int
  source : String
  file_type : FileType
deriving DecidableEq, Repr

/-- Dot product of two real vectors, the model of `np.dot` on equal-length
vectors (trailing elements of a longer vector are ignored, as with `zip`). -/
def dot : List ℝ → List ℝ → ℝ
  | [], _ => 0
  | _, [] => 0
  | a :: as, b :: bs => a * b + dot as bs

/-- Euclidean norm, the model of `np.linalg.norm`. -/
noncomputable def vecNorm (v : List ℝ) : ℝ :=
  Real.sqrt (dot v v)

/-- Cosine similarity as computed in `MongoVectorStore.similarity_search`
(lines 249-251): `np.dot(q, v) / (np.linalg.norm(q) * np.linalg.norm(v))`. -/
noncomputable def cosineSim (q v : List ℝ) : ℝ :=
  dot q v / (vecNorm q * vecNorm v)

/-- The typed connection error raised by both constructors
(`class DatabaseConnectionError(Exception)`). -/
structure DatabaseConnectionError where
  msg : String
deriving DecidableEq, Repr

/-- A failure of an underlying engine call (an exception raised by
`collection.find`, `collection.insert_many`, `ft(...).search`,
`ft(...).info` or `ft(...).create_index`). -/
structure DbFailure where
  msg : String
deriving DecidableEq, Repr

/-- The result dictionary shape produced by `similarity_search` on both
backends: `text`, `document_name`, `page_number`, `file_type`,
`similarity_score`, `id`. -/
structure SearchResult where
  text : String
  document_name : String
  page_number : Option Int
  file_type : FileType
  similarity_score : ℝ
  id : String

/-- Statistics shape returned by `get_statistics` on both backends:
`total_chunks` plus a `by_file_type` breakdown (association list in the
fixed iteration order pdf, txt, docx). -/
structure Statistics where
  total_chunks : Nat
  by_file_type : List (FileType × Nat)
deriving DecidableEq, Repr

/-- Lookup of a file type in the `by_file_type` breakdown. -/
def lookupType (t : FileType) : List (FileType × Nat) → Option Nat
  | [] => none
  | (t', n) :: rest => if t = t' then some n else lookupType t rest

/-- The per-type breakdown built by both `get_statistics` loops: iterate
pdf, txt, docx; include a type exactly when its count is positive. -/
def statsOf (f : FileType → Nat) : List (FileType × Nat) :=
  [FileType.pdf, FileType.txt, FileType.docx].filterMap
    (fun t => if 0 < f t then some (t, f t) else none)

/-! ## Exact-scan backend: MongoVectorStore -/

/-- A document of the Mongo collection as written by
`MongoVectorStore.store_embeddings` (lines 212-223); `created_at` omitted
(wall clock), `oid` models the backend-assigned `_id`. -/
structure MongoDoc where
  oid : Nat
  document_name : String
  text : String
  page_number : Option Int
  chunk_index : Int
  source : String
  file_type : FileType
  embedding : List ℝ
  embedding_model : String
  embedding_dimension : Nat

/-- The collection state: stored documents plus the next backend-assigned
object id (pymongo's `insert_many` assigns fresh ids in input order). -/
structure MongoState where
  collection : List MongoDoc
  next_oid : Nat

/-- The document dictionary built for one chunk/embedding pair
(`store_embeddings`, lines 212-223).  No dimension check is performed:
the embedding is stored as-is and `embedding_dimension` records its
actual length. -/
def mkMongoDoc (document_name : String) (c : Chunk) (e : List ℝ) (oid : Nat) :
    MongoDoc :=
  { oid := oid
    document_name := document_name
    text := c.text
    page_number := c.page_number
    chunk_index := c.chunk_index
    source := c.source
    file_type := c.file_type
    embedding := e
    embedding_model := "all-MiniLM-L6-v2"
    embedding_dimension := e.length }

/-- The batch of documents built by one `store_embeddings` call:
`zip(chunks, embeddings)` truncates to the shorter input; object ids are
assigned sequentially from `next_oid` in input order. -/
def mongoBatch (next_oid : Nat) (chunks : List Chunk) (embeddings : List (List ℝ))
    (document_name : String) : List MongoDoc :=
  (chunks.zip embeddings).enum.map
    (fun p => mkMongoDoc document_name p.2.1 p.2.2 (next_oid + p.1))

/-- `MongoVectorStore.store_embeddings` (lines 207-231): build one document
per zipped pair, `insert_many`, return the string of each inserted id in
order.  A non-empty pymongo `insert_many` call is modelled as appending
the batch and assigning sequential ids; on an empty document list
`insert_many` raises `InvalidOperation` ("documents must be a non-empty
list"), and since the method has no try/except that error propagates to
the caller. -/
def MongoVectorStore.store_embeddings (st : MongoState) (chunks : List Chunk)
    (embeddings : List (List ℝ)) (document_name : String) :
    Except DbFailure (List String × MongoState) :=
  let docs := mongoBatch st.next_oid chunks embeddings document_name
  if docs.isEmpty then
    .error { msg := "documents must be a non-empty list" }
  else
    .ok (docs.map (fun d => toString d.oid),
      { collection := st.collection ++ docs, next_oid := st.next_oid + docs.length })

/-- The filter applied by `similarity_search`: empty query when no filter,
`{'file_type': file_type_filter}` otherwise (lines 236-240). -/
def mongoFilter (filt : Option FileType) (docs : List MongoDoc) : List MongoDoc :=
  match filt with
  | none => docs
  | some t => docs.filter (fun d => d.file_type = t)

/-- The result dictionary built for one candidate document
(lines 246-260): the score is the cosine similarity of the query and the
stored embedding. -/
noncomputable def mongoResult (query_embedding : List ℝ) (d : MongoDoc) :
    SearchResult :=
  { text := d.text
    document_name := d.document_name
    page_number := d.page_number
    file_type := d.file_type
    similarity_score := cosineSim query_embedding d.embedding
    id := toString d.oid }

/-- The sort order of `results.sort(key=lambda x: x['similarity_score'],
reverse=True)`: similarity score descending.  Python's sort is stable, as
is `List.insertionSort`. -/
def simDesc (a b : SearchResult) : Prop :=
  b.similarity_score ≤ a.similarity_score

noncomputable instance : DecidableRel simDesc :=
  fun a b => inferInstanceAs (Decidable (b.similarity_score ≤ a.similarity_score))

instance : IsTotal SearchResult simDesc :=
  ⟨fun a b => le_total b.similarity_score a.similarity_score⟩

instance : IsTrans SearchResult simDesc :=
  ⟨fun _ _ _ hab hbc => le_trans hbc hab⟩

/-- The pure search pipeline of `MongoVectorStore.similarity_search`
(lines 236-263) applied to the collection contents: filter, score every
candidate, sort by score descending, truncate to `top_k`.  The early
return on an empty candidate list (lines 242-243) is kept. -/
noncomputable def MongoVectorStore.search_docs (query_embedding : List ℝ)
    (top_k : Nat) (file_type_filter : Option FileType) (docs : List MongoDoc) :
    List SearchResult :=
  let all_docs := mongoFilter file_type_filter docs
  if all_docs.isEmpty then []
  else ((all_docs.map (mongoResult query_embedding)).insertionSort simDesc).take top_k

/-- `MongoVectorStore.similarity_search` with the outcome of the underlying
`collection.find` read made explicit.  The method body has no try/except
(lines 234-263), so a failure of the read propagates to the caller
unchanged. -/
noncomputable def MongoVectorStore.similarity_search (query_embedding : List ℝ)
    (top_k : Nat) (file_type_filter : Option FileType)
    (find_outcome : Except DbFailure (List MongoDoc)) :
    Except DbFailure (List SearchResult) :=
  match find_outcome with
  | .error e => .error e
  | .ok docs =>
      .ok (MongoVectorStore.search_docs query_embedding top_k file_type_filter docs)

/-- Count of stored documents of one file type
(`collection.count_documents({'file_type': file_type})`). -/
def countType (t : FileType) (docs : List MongoDoc) : Nat :=
  (docs.filter (fun d => d.file_type = t)).length

/-- `MongoVectorStore.get_statistics` (lines 267-281): unfiltered total plus
one count per known file type, zero counts omitted. -/
def MongoVectorStore.get_statistics (docs : List MongoDoc) : Statistics :=
  { total_chunks := docs.length
    by_file_type := statsOf (fun t => countType t docs) }

/-! ## ANN backend: RedisVectorStore -/

/-- A hash record as written by `RedisVectorStore.store_embeddings`
(lines 403-414); `created_at` omitted (wall clock).  The embedding bytes
(`astype(np.float32).tobytes()`) are modelled as the vector itself;
`page_number` carries the sentinel encoding (-1 for absent). -/
structure RedisDoc where
  key : String
  document_name : String
  text : String
  page_number : Int
  chunk_index : Int
  source : String
  file_type : FileType
  embedding_model : String
  embedding_dimension : Nat
  embedding : List ℝ

/-- The deterministic key pattern of line 399:
`f"{self.prefix}{document_name}:{chunk['chunk_index']}:{i}"`. -/
def redisKey (pfx document_name : String) (chunk_index : Int) (i : Nat) : String :=
  pfx ++ document_name ++ ":" ++ toString chunk_index ++ ":" ++ toString i

/-- Sentinel encoding of the optional page number (line 406):
`chunk['page_number'] if chunk['page_number'] else -1`.  Python truthiness
maps both `None` and `0` to the sentinel. -/
def encodePage : Option Int → Int
  | none => -1
  | some p => if p = 0 then -1 else p

/-- Sentinel decoding on read (line 460):
`int(doc.page_number) if int(doc.page_number) != -1 else None`. -/
def decodePage (p : Int) : Option Int :=
  if p = -1 then none else some p

/-- The hash written for one chunk/embedding pair (lines 398-414).  As on
the Mongo side, no dimension check is performed. -/
def mkRedisDoc (pfx document_name : String) (c : Chunk) (e : List ℝ) (i : Nat) :
    RedisDoc :=
  { key := redisKey pfx document_name c.chunk_index i
    document_name := document_name
    text := c.text
    page_number := encodePage c.page_number
    chunk_index := c.chunk_index
    source := c.source
    file_type := c.file_type
    embedding_model := "all-MiniLM-L6-v2"
    embedding_dimension := e.length
    embedding := e }

/-- The batch of hashes built by one `store_embeddings` call; positional
offsets come from `enumerate`. -/
def redisBatch (pfx : String) (chunks : List Chunk) (embeddings : List (List ℝ))
    (document_name : String) : List RedisDoc :=
  (chunks.zip embeddings).enum.map
    (fun p => mkRedisDoc pfx document_name p.2.1 p.2.2 p.1)

/-- Model of `client.hset(doc_id, mapping=doc_data)`: upsert by key. -/
def hset (hashes : List RedisDoc) (d : RedisDoc) : List RedisDoc :=
  if hashes.any (fun h => h.key = d.key) then
    hashes.map (fun h => if h.key = d.key then d else h)
  else hashes ++ [d]

/-- The key-value store state plus the search index lifecycle flag. -/
structure RedisState where
  hashes : List RedisDoc
  index_exists : Bool

/-- `RedisVectorStore.store_embeddings` (lines 390-420): generate one key
per zipped pair, `hset` each hash, return the keys in order. -/
def RedisVectorStore.store_embeddings (st : RedisState) (pfx : String)
    (chunks : List Chunk) (embeddings : List (List ℝ)) (document_name : String) :
    List String × RedisState :=
  let docs := redisBatch pfx chunks embeddings document_name
  (docs.map (fun d => d.key), { st with hashes := docs.foldl hset st.hashes })

/-- One engine hit: a stored hash together with the engine's distance score
for the query (the `score` field requested by `KNN ... AS score`). -/
structure RedisHit where
  doc : RedisDoc
  score : ℝ

/-- The engine's result order requested by `.sort_by("score")`: distance
ascending. -/
def distAsc (a b : RedisHit) : Prop :=
  a.score ≤ b.score

noncomputable instance : DecidableRel distAsc :=
  fun a b => inferInstanceAs (Decidable (a.score ≤ b.score))

instance : IsTotal RedisHit distAsc :=
  ⟨fun a b => le_total a.score b.score⟩

instance : IsTrans RedisHit distAsc :=
  ⟨fun _ _ _ hab hbc => le_trans hab hbc⟩

/-- The tag filter of the query string (lines 433-439): all records for
`"*"`, tag equality for `(@file_type:{...})`. -/
def redisFilter (filt : Option FileType) (docs : List RedisDoc) : List RedisDoc :=
  match filt with
  | none => docs
  | some t => docs.filter (fun d => d.file_type = t)

/-- Modelled from the spec: the Redis FT.SEARCH KNN engine behind
`self.client.ft(self.index_name).search(q, ...)` is external to the
repository.  Per the spec, the index is configured with the COSINE
distance metric, the query requests the `top_k` nearest hits sorted by the
engine's native distance score ascending, and cosine distance is one minus
cosine similarity. -/
noncomputable def redisKnnSearch (query_embedding : List ℝ) (top_k : Nat)
    (filt : Option FileType) (docs : List RedisDoc) : List RedisHit :=
  (((redisFilter filt docs).map
      (fun d => RedisHit.mk d (1 - cosineSim query_embedding d.embedding))).insertionSort
    distAsc).take top_k

/-- The adapter's per-hit result dictionary (lines 459-469): the sentinel
page number is decoded and the engine distance converted to a similarity
via `1 - float(doc.score)`. -/
noncomputable def redisHitResult (h : RedisHit) : SearchResult :=
  { text := h.doc.text
    document_name := h.doc.document_name
    page_number := decodePage h.doc.page_number
    file_type := h.doc.file_type
    similarity_score := 1 - h.score
    id := h.doc.key }

/-- The pure search pipeline of `RedisVectorStore.similarity_search`
applied to the store contents: engine KNN search, then the adapter's
conversion of each hit. -/
noncomputable def RedisVectorStore.search_docs (query_embedding : List ℝ)
    (top_k : Nat) (file_type_filter : Option FileType) (docs : List RedisDoc) :
    List SearchResult :=
  (redisKnnSearch query_embedding top_k file_type_filter docs).map redisHitResult

/-- `RedisVectorStore.similarity_search` (lines 423-478) with the outcome of
the engine call made explicit: the whole engine interaction sits inside
try/except, and any failure is logged and converted to an empty list. -/
noncomputable def RedisVectorStore.similarity_search (query_embedding : List ℝ)
    (top_k : Nat) (file_type_filter : Option FileType)
    (search_outcome : Except DbFailure (List RedisHit)) :
    Except DbFailure (List SearchResult) :=
  match search_outcome with
  | .error _ => .ok []
  | .ok hits => .ok (hits.map redisHitResult)

/-- Count of stored hashes of one file type (the match total of the
content-free tag query issued per type, lines 492-496). -/
def countTypeR (t : FileType) (docs : List RedisDoc) : Nat :=
  (docs.filter (fun d => d.file_type = t)).length

/-- The success path of `RedisVectorStore.get_statistics` (lines 482-500):
total from the index's `num_docs` metadata, one tag-filter count per known
type, zero counts omitted. -/
def RedisVectorStore.get_statistics_docs (docs : List RedisDoc) : Statistics :=
  { total_chunks := docs.length
    by_file_type := statsOf (fun t => countTypeR t docs) }

/-- `RedisVectorStore.get_statistics` with the outcome of the engine calls
made explicit: the whole body sits inside try/except and failures yield
zeroed statistics (lines 501-505). -/
def RedisVectorStore.get_statistics (outcome : Except DbFailure (List RedisDoc)) :
    Statistics :=
  match outcome with
  | .error _ => { total_chunks := 0, by_file_type := [] }
  | .ok docs => RedisVectorStore.get_statistics_docs docs

/-! ## Index lifecycle and constructors -/

/-- Modelled from the spec: `FT.INFO` on the index name succeeds exactly
when the index exists and raises otherwise (the probe of lines 346-350). -/
def ftInfo (index_exists : Bool) : Except DbFailure Unit :=
  if index_exists then .ok () else .error { msg := "Unknown index name" }

/-- Modelled from the spec: `FT.CREATE` creates the index when absent and
errors when an index of that name already exists. -/
def ftCreate (index_exists : Bool) : Except DbFailure Bool :=
  if index_exists then .error { msg := "Index already exists" } else .ok true

/-- Outcome of one `_create_index` call: the index state afterwards,
whether a create-index call was issued, and whether the call raised. -/
structure CreateIndexResult where
  index_exists : Bool
  issued_create : Bool
  errored : Bool
deriving DecidableEq, Repr

/-- `RedisVectorStore._create_index` (lines 342-387): probe with `info()`;
on success only log "Index already exists"; on any probe failure define
the schema and issue `create_index` (whose own failure would propagate
out of the bare except block). -/
def RedisVectorStore.create_index (index_exists : Bool) : CreateIndexResult :=
  match ftInfo index_exists with
  | .ok _ =>
      { index_exists := index_exists, issued_create := false, errored := false }
  | .error _ =>
      match ftCreate index_exists with
      | .ok b => { index_exists := b, issued_create := true, errored := false }
      | .error _ =>
          { index_exists := index_exists, issued_create := true, errored := true }

/-- The kinds of failure a constructor's connection handling can hit: a
network-unreachable target, credentials the server rejects, or some other
eagerly raised error (for Mongo, a client-side error such as an invalid
URI or a bad configuration value computed in `_build_uri`; for Redis, an
exception that is not a `redis.exceptions.ConnectionError`). -/
inductive ConnectFailure
  | unreachable_host
  | auth_failure
  | other (msg : String)
deriving DecidableEq, Repr

/-- Which connection-attempt failures redis-py raises as (subclasses of)
`redis.exceptions.ConnectionError`, the class caught by the first except
branch of the Redis constructor (line 324): an unreachable host raises
`ConnectionError` itself and rejected credentials raise
`AuthenticationError`, a subclass of it. -/
def isRedisConnectionError : ConnectFailure → Bool
  | .unreachable_host => true
  | .auth_failure => true
  | .other _ => false

/-- A constructed backend handle (the usable instance a successful
constructor returns). -/
structure MongoInstance where
  is_connected : Bool
deriving DecidableEq, Repr

/-- `MongoVectorStore.__init__` (lines 128-176).  `MongoClient(...)`
connects lazily and the constructor performs no server operation: there is
no ping, and subscripting the database (line 141) and the collection
(line 142) are local handle lookups.  An unreachable host or rejected
credentials therefore never reach the except branches — construction
completes with `_is_connected = True` and the failure surfaces only at
the first real operation.  Only an eagerly raised client-side error
(invalid URI, bad configuration inside `_build_uri`, both evaluated inside
the try block at line 139) hits the except branches, which re-raise it as
`DatabaseConnectionError`. -/
def MongoVectorStore.init (outcome : Option ConnectFailure) :
    Except DatabaseConnectionError MongoInstance :=
  match outcome with
  | some (ConnectFailure.other _) => .error { msg := "MongoDB connection error" }
  | _ => .ok { is_connected := true }

/-- A constructed Redis backend handle. -/
structure RedisInstance where
  is_connected : Bool
  index_exists : Bool
deriving DecidableEq, Repr

/-- `RedisVectorStore.__init__` (lines 294-339) with the outcome of the
connection attempt made explicit: a `redis.exceptions.ConnectionError`
(unreachable host, rejected credentials) is re-raised as
`DatabaseConnectionError`; any other exception is only logged by the
second except branch, which lets the constructor finish with
`_is_connected` still false. -/
def RedisVectorStore.init (outcome : Option ConnectFailure) (index_exists : Bool) :
    Except DatabaseConnectionError RedisInstance :=
  match outcome with
  | none =>
      let r := RedisVectorStore.create_index index_exists
      .ok { is_connected := true, index_exists := r.index_exists }
  | some f =>
      if isRedisConnectionError f then
        .error { msg := "Redis connection failed" }
      else
        .ok { is_connected := false, index_exists := index_exists }

/-! ## Concrete sample inputs -/

/-- A sample chunk used for concrete instantiations. -/
def sampleChunk : Chunk :=
  { text := "alpha"
    page_number := some 1
    chunk_index := 0
    source := "a.txt"
    file_type := FileType.txt }

/-- A sample stored Mongo document with a one-dimensional embedding. -/
def sampleMongoDoc : MongoDoc :=
  mkMongoDoc "a.txt" sampleChunk [1] 0

/-- The sample Redis hash corresponding to `sampleMongoDoc`. -/
def sampleRedisDoc : RedisDoc :=
  mkRedisDoc "doc:" "a.txt" sampleChunk [1] 0

/-- A sample read-time failure. -/
def dbBoom : DbFailure :=
  { msg := "boom" }

/-! ## Projections used to compare the two backends

Both backends persist the same logical content (text, document name, file
type, embedding); their result rows additionally expose backend-specific
identifiers and page-number encodings.  The cross-backend conformance
requirement is about the rank order of the shared content, so it is stated
through these projections. -/

/-- The backend-independent content of a stored row. -/
def mongoDocCore (d : MongoDoc) : String × String × FileType × List ℝ :=
  (d.text, d.document_name, d.file_type, d.embedding)

/-- The backend-independent content of a stored hash. -/
def redisDocCore (d : RedisDoc) : String × String × FileType × List ℝ :=
  (d.text, d.document_name, d.file_type, d.embedding)

/-- The backend-independent content of a search result. -/
def resultProjection (r : SearchResult) : String × String × FileType × ℝ :=
  (r.text, r.document_name, r.file_type, r.similarity_score)

/-- Scoring a stored row's content against a query. -/
noncomputable def coreProj (q : List ℝ) (c : String × String × FileType × List ℝ) :
    String × String × FileType × ℝ :=
  (c.1, c.2.1, c.2.2.1, cosineSim q c.2.2.2)

/-- Rank order on stored content: cosine similarity to the query,
descending. -/
def coreRank (q : List ℝ) (c₁ c₂ : String × String × FileType × List ℝ) : Prop :=
  cosineSim q c₂.2.2.2 ≤ cosineSim q c₁.2.2.2

noncomputable instance (q : List ℝ) : DecidableRel (coreRank q) :=
  fun c₁ c₂ => inferInstanceAs (Decidable (_ ≤ _))

/-- Rank order on Mongo documents induced by the exact-scan scoring. -/
def mongoRank (q : List ℝ) (d₁ d₂ : MongoDoc) : Prop :=
  cosineSim q d₂.embedding ≤ cosineSim q d₁.embedding

noncomputable instance (q : List ℝ) : DecidableRel (mongoRank q) :=
  fun d₁ d₂ => inferInstanceAs (Decidable (_ ≤ _))

/-- Rank order on Redis hashes induced by the engine's cosine distance. -/
def redisRank (q : List ℝ) (d₁ d₂ : RedisDoc) : Prop :=
  cosineSim q d₂.embedding ≤ cosineSim q d₁.embedding

noncomputable instance (q : List ℝ) : DecidableRel (redisRank q) :=
  fun d₁ d₂ => inferInstanceAs (Decidable (_ ≤ _))

/-! ## Helper lemmas -/

/-- Splitting a list's length into the three per-type counts: every stored
row carries one of the three known file types. -/
theorem length_eq_sum_counts {α : Type} (g : α → FileType) (l : List α) :
    l.length = (l.filter (fun d => g d = FileType.pdf)).length
        + (l.filter (fun d => g d = FileType.txt)).length
        + (l.filter (fun d => g d = FileType.docx)).length := by
  induction l with
  | nil => simp
  | cons d t ih =>
    rcases hd : g d with _ | _ | _ <;>
      simp [List.filter_cons, hd, ih] <;> omega

/-- Lookup in the breakdown built by the statistics loops. -/
theorem lookup_statsOf (f : FileType → Nat) (t : FileType) :
    lookupType t (statsOf f) = if 0 < f t then some (f t) else none := by
  cases t <;>
    simp only [statsOf, List.filterMap] <;>
    split_ifs <;>
    simp_all [lookupType]

/-- `take` commutes with `zip`. -/
theorem zip_take_take (l₁ : List Chunk) (l₂ : List (List ℝ)) (n : Nat) :
    (l₁.take n).zip (l₂.take n) = (l₁.zip l₂).take n := by
  induction n generalizing l₁ l₂ with
  | zero => simp
  | succ m ih =>
    cases l₁ with
    | nil => simp
    | cons a t₁ =>
      cases l₂ with
      | nil => simp
      | cons b t₂ =>
        rw [List.take_succ_cons, List.take_succ_cons, List.zip_cons_cons,
          List.zip_cons_cons, List.take_succ_cons]
        exact congrArg _ (ih t₁ t₂)

/-- Zipping is unchanged by truncating both inputs to the common length. -/
theorem zip_eq_zip_take (l₁ : List Chunk) (l₂ : List (List ℝ)) :
    l₁.zip l₂ = (l₁.take (min l₁.length l₂.length)).zip
        (l₂.take (min l₁.length l₂.length)) := by
  rw [zip_take_take, List.take_of_length_le]
  rw [List.length_zip]

/-- Folding `hset` over a batch of fresh, pairwise-distinct keys appends the
batch. -/
theorem foldl_hset_append (docs acc : List RedisDoc)
    (hkeys : (docs.map (fun d => d.key)).Nodup)
    (hfresh : ∀ d ∈ docs, ∀ h0 ∈ acc, h0.key ≠ d.key) :
    docs.foldl hset acc = acc ++ docs := by
  induction docs generalizing acc with
  | nil => simp
  | cons d t ih =>
    simp only [List.map_cons, List.nodup_cons, List.mem_map] at hkeys
    have hany : acc.any (fun h0 => h0.key = d.key) = false := by
      simp only [List.any_eq_false, decide_eq_true_eq]
      intro x hx
      exact hfresh d (List.mem_cons_self d t) x hx
    have hstep : hset acc d = acc ++ [d] := by
      simp [hset, hany]
    have hfresh' : ∀ e ∈ t, ∀ h0 ∈ acc ++ [d], h0.key ≠ e.key := by
      intro e he h0 h0mem
      rcases List.mem_append.mp h0mem with hmem | hmem
      · exact hfresh e (List.mem_cons_of_mem d he) h0 hmem
      · have hd : h0 = d := by simpa using hmem
        subst hd
        intro hcontra
        exact hkeys.1 ⟨e, he, hcontra.symm⟩
    rw [List.foldl_cons, hstep, ih (acc ++ [d]) hkeys.2 hfresh']
    simp

/-! ## Claim theorems -/

/-- Claim C8: index creation is idempotent.  Connecting twice against the
same index target creates the index at most once: the first call leaves
the index present without error, and the second call detects the existing
index, issues no create-index call, and does not raise. -/
theorem create_index_idempotent (s : Bool) :
    (RedisVectorStore.create_index s).errored = false ∧
    (RedisVectorStore.create_index s).index_exists = true ∧
    (RedisVectorStore.create_index
        (RedisVectorStore.create_index s).index_exists).issued_create = false ∧
    (RedisVectorStore.create_index
        (RedisVectorStore.create_index s).index_exists).errored = false := by
  cases s <;> simp [RedisVectorStore.create_index, ftInfo, ftCreate]

/-- Claim C7 counterexample: the Mongo constructor does not abort on a
connection-time failure.  With an unreachable host or rejected
credentials, `MongoClient` connects lazily and `__init__` performs no
server operation, so construction completes and returns an instance
marked connected instead of raising `DatabaseConnectionError`. -/
theorem mongo_init_lazy_construction_cex :
    MongoVectorStore.init (some ConnectFailure.unreachable_host)
        = Except.ok { is_connected := true } ∧
    MongoVectorStore.init (some ConnectFailure.auth_failure)
        = Except.ok { is_connected := true } :=
  ⟨rfl, rfl⟩

/-- Claim C7 (amended): on a connection-time failure (unreachable host,
authentication failure) the Redis constructor aborts by raising the typed
`DatabaseConnectionError` — its `ping` forces the connection, and both
failure kinds are (subclasses of) `redis.exceptions.ConnectionError` — and
produces no instance; the Mongo constructor, which performs no server
operation, completes successfully and returns an instance marked
connected despite the failure. -/
theorem connection_failure_policy (f : ConnectFailure) (idx : Bool)
    (h : f = ConnectFailure.unreachable_host ∨ f = ConnectFailure.auth_failure) :
    RedisVectorStore.init (some f) idx
        = Except.error { msg := "Redis connection failed" } ∧
    MongoVectorStore.init (some f) = Except.ok { is_connected := true } := by
  rcases h with h | h <;> subst h <;>
    simp [MongoVectorStore.init, RedisVectorStore.init, isRedisConnectionError]

/-- Witness for the amended C7 at the concrete failure kind
`unreachable_host`. -/
theorem connection_failure_policy_witness :
    RedisVectorStore.init (some ConnectFailure.unreachable_host) false
        = Except.error { msg := "Redis connection failed" } ∧
    MongoVectorStore.init (some ConnectFailure.unreachable_host)
        = Except.ok { is_connected := true } :=
  connection_failure_policy ConnectFailure.unreachable_host false (Or.inl rfl)

/-- Claim C3 counterexample: the Mongo backend does not absorb internal
search errors.  `MongoVectorStore.similarity_search` has no try/except, so
a failing collection read propagates to the caller instead of yielding an
empty sequence. -/
theorem mongo_search_error_propagates_cex :
    MongoVectorStore.similarity_search [] 5 none (Except.error dbBoom)
        = Except.error dbBoom ∧
    (MongoVectorStore.similarity_search [] 5 none (Except.error dbBoom)).isOk
        = false :=
  ⟨rfl, rfl⟩

/-- Claim C3 (amended): only the Redis backend never fails the caller — its
search converts every internal error into an empty sequence — while the
Mongo backend propagates internal search errors to the caller. -/
theorem search_error_policy (q : List ℝ) (k : Nat) (filt : Option FileType)
    (e : DbFailure) (outcome : Except DbFailure (List RedisHit)) :
    (RedisVectorStore.similarity_search q k filt outcome).isOk = true ∧
    RedisVectorStore.similarity_search q k filt (Except.error e) = Except.ok [] ∧
    MongoVectorStore.similarity_search q k filt (Except.error e)
        = Except.error e := by
  refine ⟨?_, rfl, rfl⟩
  cases outcome <;> rfl

/-- Claim C5 evaluation at the failing input: with a configured dimension
of 4, storing a single 3-dimensional embedding is not rejected by either
backend — both return an identifier and persist the mismatched vector
unchanged (`EMBEDDING_DIM` is read into `self.embedding_dim` by both
constructors but never consulted by `store_embeddings`). -/
theorem store_embeddings_dimension_unchecked :
    (MongoVectorStore.store_embeddings { collection := [], next_oid := 0 }
        [sampleChunk] [[1, 0, 0]] "a.txt").toOption.map (fun p => p.1)
        = some ["0"] ∧
    ((MongoVectorStore.store_embeddings { collection := [], next_oid := 0 }
        [sampleChunk] [[1, 0, 0]] "a.txt").toOption.map
      (fun p => p.2.collection.map (fun d => d.embedding)))
        = some [[1, 0, 0]] ∧
    (RedisVectorStore.store_embeddings { hashes := [], index_exists := true }
        "doc:" [sampleChunk] [[1, 0, 0]] "a.txt").1 = ["doc:a.txt:0:0"] ∧
    ((RedisVectorStore.store_embeddings { hashes := [], index_exists := true }
        "doc:" [sampleChunk] [[1, 0, 0]] "a.txt").2.hashes.map
      (fun d => d.embedding)) = [[1, 0, 0]] := by
  exact ⟨rfl, rfl, rfl, rfl⟩

/-- Claim C9: statistics round-trip on both backends.  The reported total
equals the number of stored chunks (which splits into the per-type counts,
since every stored chunk carries one of the three known types), and the
`by_file_type` breakdown maps each type with a positive count to that
count, omitting zero-count types. -/
theorem get_statistics_round_trip (mdocs : List MongoDoc) (rdocs : List RedisDoc) :
    ((MongoVectorStore.get_statistics mdocs).total_chunks
        = countType FileType.pdf mdocs + countType FileType.txt mdocs
            + countType FileType.docx mdocs) ∧
    (∀ t, lookupType t (MongoVectorStore.get_statistics mdocs).by_file_type
        = if 0 < countType t mdocs then some (countType t mdocs) else none) ∧
    ((RedisVectorStore.get_statistics_docs rdocs).total_chunks
        = countTypeR FileType.pdf rdocs + countTypeR FileType.txt rdocs
            + countTypeR FileType.docx rdocs) ∧
    (∀ t, lookupType t (RedisVectorStore.get_statistics_docs rdocs).by_file_type
        = if 0 < countTypeR t rdocs then some (countTypeR t rdocs) else none) := by
  refine ⟨?_, ?_, ?_, ?_⟩
  · simpa [MongoVectorStore.get_statistics, countType] using
      length_eq_sum_counts (fun d => d.file_type) mdocs
  · intro t
    simpa [MongoVectorStore.get_statistics] using
      lookup_statsOf (fun t => countType t mdocs) t
  · simpa [RedisVectorStore.get_statistics_docs, countTypeR] using
      length_eq_sum_counts (fun d => d.file_type) rdocs
  · intro t
    simpa [RedisVectorStore.get_statistics_docs] using
      lookup_statsOf (fun t => countTypeR t rdocs) t

/-- Claim C10 counterexample: with non-empty `chunks` and empty
`embeddings` the zipped batch is empty, and the Mongo backend raises —
pymongo's `insert_many` rejects an empty document list — so "neither
backend raises an error" is false. -/
theorem store_embeddings_empty_batch_raises_cex :
    MongoVectorStore.store_embeddings { collection := [], next_oid := 0 }
        [sampleChunk] [] "a.txt"
      = Except.error { msg := "documents must be a non-empty list" } :=
  rfl

/-- Claim C10 (amended): with chunks and embeddings of unequal length both
backends consume only the first `min` aligned pairs — each call equals the
same call on the inputs truncated to the common length, the excess of the
longer sequence being discarded by `zip`.  The Redis backend never raises
and returns one identifier per such pair; the Mongo backend does the same
whenever both sequences are non-empty, but when the shorter sequence is
empty the batch handed to `insert_many` is empty and pymongo raises
`InvalidOperation` ("documents must be a non-empty list"), which
propagates. -/
theorem store_embeddings_unequal_policy (chunks : List Chunk)
    (embeddings : List (List ℝ)) (document_name pfx : String)
    (mst : MongoState) (rst : RedisState)
    (h : chunks.length ≠ embeddings.length) :
    (RedisVectorStore.store_embeddings rst pfx chunks embeddings document_name).1.length
        = min chunks.length embeddings.length ∧
    RedisVectorStore.store_embeddings rst pfx chunks embeddings document_name
        = RedisVectorStore.store_embeddings rst pfx
            (chunks.take (min chunks.length embeddings.length))
            (embeddings.take (min chunks.length embeddings.length))
            document_name ∧
    MongoVectorStore.store_embeddings mst chunks embeddings document_name
        = MongoVectorStore.store_embeddings mst
            (chunks.take (min chunks.length embeddings.length))
            (embeddings.take (min chunks.length embeddings.length))
            document_name ∧
    (0 < min chunks.length embeddings.length →
      ∃ ids st',
        MongoVectorStore.store_embeddings mst chunks embeddings document_name
            = Except.ok (ids, st') ∧
        ids.length = min chunks.length embeddings.length ∧
        st'.collection.length
            = mst.collection.length + min chunks.length embeddings.length) ∧
    (min chunks.length embeddings.length = 0 →
      MongoVectorStore.store_embeddings mst chunks embeddings document_name
          = Except.error { msg := "documents must be a non-empty list" }) := by
  have hbatchR : redisBatch pfx chunks embeddings document_name
      = redisBatch pfx (chunks.take (min chunks.length embeddings.length))
          (embeddings.take (min chunks.length embeddings.length)) document_name := by
    unfold redisBatch
    rw [zip_eq_zip_take]
  have hbatchM : mongoBatch mst.next_oid chunks embeddings document_name
      = mongoBatch mst.next_oid (chunks.take (min chunks.length embeddings.length))
          (embeddings.take (min chunks.length embeddings.length)) document_name := by
    unfold mongoBatch
    rw [zip_eq_zip_take]
  have hblen : (mongoBatch mst.next_oid chunks embeddings document_name).length
      = min chunks.length embeddings.length := by
    simp [mongoBatch, List.length_zip]
  refine ⟨?_, ?_, ?_, ?_, ?_⟩
  · simp [RedisVectorStore.store_embeddings, redisBatch, List.length_zip]
  · simp only [RedisVectorStore.store_embeddings]
    rw [hbatchR]
  · simp only [MongoVectorStore.store_embeddings]
    rw [hbatchM]
  · intro hpos
    have hbne : (mongoBatch mst.next_oid chunks embeddings document_name).isEmpty
        = false := by
      cases hval : (mongoBatch mst.next_oid chunks embeddings document_name).isEmpty
      · rfl
      · rw [List.isEmpty_iff.mp hval] at hblen
        simp at hblen
        omega
    refine ⟨(mongoBatch mst.next_oid chunks embeddings document_name).map
        (fun d => toString d.oid),
      { collection := mst.collection
            ++ mongoBatch mst.next_oid chunks embeddings document_name,
        next_oid := mst.next_oid
            + (mongoBatch mst.next_oid chunks embeddings document_name).length },
      ?_, ?_, ?_⟩
    · simp only [MongoVectorStore.store_embeddings, hbne, Bool.false_eq_true,
        if_false]
    · simp [hblen]
    · simp [hblen]
  · intro h0
    have hbnil : mongoBatch mst.next_oid chunks embeddings document_name = [] := by
      apply List.eq_nil_of_length_eq_zero
      omega
    simp [MongoVectorStore.store_embeddings, hbnil]

/-- Witness for the amended C10 at a concrete unequal-length input with a
non-empty common prefix: two chunks, one embedding. -/
theorem store_embeddings_unequal_policy_witness :
    (RedisVectorStore.store_embeddings { hashes := [], index_exists := true }
        "doc:" [sampleChunk, sampleChunk] [[1]] "a.txt").1.length
        = min ([sampleChunk, sampleChunk].length) [[(1 : ℝ)]].length ∧
    RedisVectorStore.store_embeddings { hashes := [], index_exists := true }
        "doc:" [sampleChunk, sampleChunk] [[1]] "a.txt"
        = RedisVectorStore.store_embeddings { hashes := [], index_exists := true }
            "doc:" ([sampleChunk, sampleChunk].take
                (min ([sampleChunk, sampleChunk].length) [[(1 : ℝ)]].length))
            ([[(1 : ℝ)]].take
                (min ([sampleChunk, sampleChunk].length) [[(1 : ℝ)]].length))
            "a.txt" ∧
    MongoVectorStore.store_embeddings { collection := [], next_oid := 0 }
        [sampleChunk, sampleChunk] [[1]] "a.txt"
        = MongoVectorStore.store_embeddings { collection := [], next_oid := 0 }
            ([sampleChunk, sampleChunk].take
                (min ([sampleChunk, sampleChunk].length) [[(1 : ℝ)]].length))
            ([[(1 : ℝ)]].take
                (min ([sampleChunk, sampleChunk].length) [[(1 : ℝ)]].length))
            "a.txt" ∧
    (0 < min ([sampleChunk, sampleChunk].length) [[(1 : ℝ)]].length →
      ∃ ids st',
        MongoVectorStore.store_embeddings { collection := [], next_oid := 0 }
            [sampleChunk, sampleChunk] [[1]] "a.txt"
            = Except.ok (ids, st') ∧
        ids.length = min ([sampleChunk, sampleChunk].length) [[(1 : ℝ)]].length ∧
        st'.collection.length
            = ([] : List MongoDoc).length
                + min ([sampleChunk, sampleChunk].length) [[(1 : ℝ)]].length) ∧
    (min ([sampleChunk, sampleChunk].length) [[(1 : ℝ)]].length = 0 →
      MongoVectorStore.store_embeddings { collection := [], next_oid := 0 }
          [sampleChunk, sampleChunk] [[1]] "a.txt"
          = Except.error { msg := "documents must be a non-empty list" }) :=
  store_embeddings_unequal_policy [sampleChunk, sampleChunk] [[1]] "a.txt" "doc:"
    { collection := [], next_oid := 0 } { hashes := [], index_exists := true }
    (by decide)

/-- Claim C2: on either backend, `similarity_search` returns at most
`top_k` results, sorted by `similarity_score` descending.  The Mongo list
is a truncated stable descending sort; the Redis list comes from the
engine sorted by distance ascending, which the `1 - distance` conversion
turns into similarity descending. -/
theorem search_top_k_sorted (q : List ℝ) (k : Nat) (filt : Option FileType)
    (mdocs : List MongoDoc) (rdocs : List RedisDoc) (h : 1 ≤ k) :
    (MongoVectorStore.search_docs q k filt mdocs).length ≤ k ∧
    (MongoVectorStore.search_docs q k filt mdocs).Sorted simDesc ∧
    (RedisVectorStore.search_docs q k filt rdocs).length ≤ k ∧
    (RedisVectorStore.search_docs q k filt rdocs).Sorted simDesc := by
  have hmono : ∀ a b : RedisHit, distAsc a b →
      simDesc (redisHitResult a) (redisHitResult b) := by
    intro a b hab
    simp only [simDesc, redisHitResult]
    exact sub_le_sub_left hab 1
  refine ⟨?_, ?_, ?_, ?_⟩
  · by_cases hemp : (mongoFilter filt mdocs).isEmpty
    · simp [MongoVectorStore.search_docs, hemp]
    · simp only [MongoVectorStore.search_docs, hemp, Bool.false_eq_true, if_false]
      exact List.length_take_le k _
  · by_cases hemp : (mongoFilter filt mdocs).isEmpty
    · simp [MongoVectorStore.search_docs, hemp]
    · simp only [MongoVectorStore.search_docs, hemp, Bool.false_eq_true, if_false]
      exact (List.sorted_insertionSort simDesc _).sublist (List.take_sublist k _)
  · simp only [RedisVectorStore.search_docs, redisKnnSearch, List.length_map]
    exact List.length_take_le k _
  · have hhits : (redisKnnSearch q k filt rdocs).Sorted distAsc :=
      (List.sorted_insertionSort distAsc _).sublist (List.take_sublist k _)
    exact List.Pairwise.map redisHitResult (fun a b hab => hmono a b hab) hhits

/-- Witness for C2 at `top_k = 1` on empty corpora. -/
theorem search_top_k_sorted_witness :
    (MongoVectorStore.search_docs [] 1 none []).length ≤ 1 ∧
    (MongoVectorStore.search_docs [] 1 none []).Sorted simDesc ∧
    (RedisVectorStore.search_docs [] 1 none []).length ≤ 1 ∧
    (RedisVectorStore.search_docs [] 1 none []).Sorted simDesc :=
  search_top_k_sorted [] 1 none [] [] (by decide)

/-- Claim C6: in the exact-scan backend, every candidate in the
(optionally filtered) collection is scored, each with the cosine
similarity `dot(q, v) / (norm(q) * norm(v))`; when `top_k` covers the
whole filtered collection the output is exactly a reordering of the
scored candidates. -/
theorem mongo_search_scores_all_candidates (q : List ℝ) (k : Nat)
    (filt : Option FileType) (docs : List MongoDoc)
    (h : (mongoFilter filt docs).length ≤ k) :
    (MongoVectorStore.search_docs q k filt docs).Perm
        ((mongoFilter filt docs).map (mongoResult q)) ∧
    ∀ d ∈ mongoFilter filt docs,
      (mongoResult q d).similarity_score
        = dot q d.embedding
            / (Real.sqrt (dot q q) * Real.sqrt (dot d.embedding d.embedding)) := by
  constructor
  · by_cases hemp : (mongoFilter filt docs).isEmpty
    · rw [List.isEmpty_iff] at hemp
      simp [MongoVectorStore.search_docs, hemp]
    · simp only [MongoVectorStore.search_docs, hemp, Bool.false_eq_true, if_false]
      have hlen :
          (((mongoFilter filt docs).map (mongoResult q)).insertionSort simDesc).length
            ≤ k := by
        simpa using h
      rw [List.take_of_length_le hlen]
      exact List.perm_insertionSort simDesc _
  · intro d _
    rfl

/-- Witness for C6 at a one-document collection with `top_k = 1`. -/
theorem mongo_search_scores_all_candidates_witness :
    (MongoVectorStore.search_docs [1] 1 none [sampleMongoDoc]).Perm
        ((mongoFilter none [sampleMongoDoc]).map (mongoResult [1])) ∧
    ∀ d ∈ mongoFilter none [sampleMongoDoc],
      (mongoResult [1] d).similarity_score
        = dot [1] d.embedding
            / (Real.sqrt (dot [1] [1]) * Real.sqrt (dot d.embedding d.embedding)) :=
  mongo_search_scores_all_candidates [1] 1 none [sampleMongoDoc]
    (by simp [mongoFilter])

/-- Claim C4: for non-empty chunk/embedding sequences of equal length,
`store_embeddings` on either backend stores one record per aligned pair
and returns exactly one identifier per pair, in input order: the i-th
identifier and the i-th stored record are built from the i-th chunk and
the i-th embedding.  For the Redis side the generated keys are assumed
pairwise distinct and absent from the store, which is what the
deterministic key pattern guarantees in normal operation. -/
theorem store_embeddings_aligned_ids (chunks : List Chunk)
    (embeddings : List (List ℝ)) (document_name pfx : String)
    (mst : MongoState) (rst : RedisState)
    (hlen : chunks.length = embeddings.length) (hne : chunks ≠ [])
    (hkeys : ((redisBatch pfx chunks embeddings document_name).map
        (fun d => d.key)).Nodup)
    (hfresh : ∀ d ∈ redisBatch pfx chunks embeddings document_name,
        ∀ h0 ∈ rst.hashes, h0.key ≠ d.key) :
    (∃ ids st',
      MongoVectorStore.store_embeddings mst chunks embeddings document_name
          = Except.ok (ids, st') ∧
      ids.length = chunks.length ∧
      st'.collection
          = mst.collection ++ mongoBatch mst.next_oid chunks embeddings document_name ∧
      (∀ i, i < chunks.length →
        ∃ c e, chunks[i]? = some c ∧ embeddings[i]? = some e ∧
          ids[i]? = some (toString (mst.next_oid + i)) ∧
          (mongoBatch mst.next_oid chunks embeddings document_name)[i]?
              = some (mkMongoDoc document_name c e (mst.next_oid + i)))) ∧
    (mongoBatch mst.next_oid chunks embeddings document_name).length
        = chunks.length ∧
    (RedisVectorStore.store_embeddings rst pfx chunks embeddings document_name).1.length
        = chunks.length ∧
    (RedisVectorStore.store_embeddings rst pfx chunks embeddings document_name).2.hashes
        = rst.hashes ++ redisBatch pfx chunks embeddings document_name ∧
    (∀ i, i < chunks.length →
      ∃ c e, chunks[i]? = some c ∧ embeddings[i]? = some e ∧
        (RedisVectorStore.store_embeddings rst pfx chunks embeddings document_name).1[i]?
            = some (redisKey pfx document_name c.chunk_index i) ∧
        (redisBatch pfx chunks embeddings document_name)[i]?
            = some (mkRedisDoc pfx document_name c e i)) := by
  have hziplen : (chunks.zip embeddings).length = chunks.length := by
    rw [List.length_zip, hlen, min_self]
  have hblen : (mongoBatch mst.next_oid chunks embeddings document_name).length
      = chunks.length := by
    simp [mongoBatch, hziplen]
  have hpos : 0 < chunks.length := by
    cases chunks with
    | nil => exact absurd rfl hne
    | cons a t => simp
  have hbne : (mongoBatch mst.next_oid chunks embeddings document_name).isEmpty
      = false := by
    cases hval : (mongoBatch mst.next_oid chunks embeddings document_name).isEmpty
    · rfl
    · rw [List.isEmpty_iff.mp hval] at hblen
      simp at hblen
      omega
  refine ⟨?_, hblen, ?_, ?_, ?_⟩
  · refine ⟨(mongoBatch mst.next_oid chunks embeddings document_name).map
        (fun d => toString d.oid),
      { collection := mst.collection
            ++ mongoBatch mst.next_oid chunks embeddings document_name,
        next_oid := mst.next_oid
            + (mongoBatch mst.next_oid chunks embeddings document_name).length },
      ?_, ?_, rfl, ?_⟩
    · simp only [MongoVectorStore.store_embeddings, hbne, Bool.false_eq_true,
        if_false]
    · simp [hblen]
    · intro i hi
      have hi' : i < embeddings.length := hlen ▸ hi
      have hzip_i : (chunks.zip embeddings)[i]? = some (chunks[i], embeddings[i]) :=
        List.getElem?_zip_eq_some.mpr
          ⟨List.getElem?_eq_getElem hi, List.getElem?_eq_getElem hi'⟩
      have henum_i : (chunks.zip embeddings).enum[i]?
          = some (i, (chunks[i], embeddings[i])) := by
        rw [List.getElem?_enum, hzip_i]
        rfl
      have hbatch_i : (mongoBatch mst.next_oid chunks embeddings document_name)[i]?
          = some (mkMongoDoc document_name chunks[i] embeddings[i]
              (mst.next_oid + i)) := by
        unfold mongoBatch
        rw [List.getElem?_map, henum_i]
        rfl
      refine ⟨chunks[i], embeddings[i], List.getElem?_eq_getElem hi,
        List.getElem?_eq_getElem hi', ?_, hbatch_i⟩
      rw [List.getElem?_map, hbatch_i]
      rfl
  · simp [RedisVectorStore.store_embeddings, redisBatch, hziplen]
  · show (redisBatch pfx chunks embeddings document_name).foldl hset rst.hashes = _
    exact foldl_hset_append _ _ hkeys hfresh
  · intro i hi
    have hi' : i < embeddings.length := hlen ▸ hi
    have hzip_i : (chunks.zip embeddings)[i]? = some (chunks[i], embeddings[i]) :=
      List.getElem?_zip_eq_some.mpr
        ⟨List.getElem?_eq_getElem hi, List.getElem?_eq_getElem hi'⟩
    have henum_i : (chunks.zip embeddings).enum[i]?
        = some (i, (chunks[i], embeddings[i])) := by
      rw [List.getElem?_enum, hzip_i]
      rfl
    have hbatch_i : (redisBatch pfx chunks embeddings document_name)[i]?
        = some (mkRedisDoc pfx document_name chunks[i] embeddings[i] i) := by
      unfold redisBatch
      rw [List.getElem?_map, henum_i]
      rfl
    refine ⟨chunks[i], embeddings[i], List.getElem?_eq_getElem hi,
      List.getElem?_eq_getElem hi', ?_, hbatch_i⟩
    show ((redisBatch pfx chunks embeddings document_name).map
        (fun d => d.key))[i]? = _
    rw [List.getElem?_map, hbatch_i]
    rfl

/-- Witness for C4 at a concrete one-pair store into empty backends. -/
theorem store_embeddings_aligned_ids_witness :
    (∃ ids st',
      MongoVectorStore.store_embeddings { collection := [], next_oid := 7 }
          [sampleChunk] [[1]] "a.txt" = Except.ok (ids, st') ∧
      ids.length = [sampleChunk].length ∧
      st'.collection = [] ++ mongoBatch 7 [sampleChunk] [[1]] "a.txt" ∧
      (∀ i, i < [sampleChunk].length →
        ∃ c e, [sampleChunk][i]? = some c ∧ [[(1 : ℝ)]][i]? = some e ∧
          ids[i]? = some (toString (7 + i)) ∧
          (mongoBatch 7 [sampleChunk] [[1]] "a.txt")[i]?
              = some (mkMongoDoc "a.txt" c e (7 + i)))) ∧
    (mongoBatch 7 [sampleChunk] [[1]] "a.txt").length = [sampleChunk].length ∧
    (RedisVectorStore.store_embeddings { hashes := [], index_exists := true }
        "doc:" [sampleChunk] [[1]] "a.txt").1.length = [sampleChunk].length ∧
    (RedisVectorStore.store_embeddings { hashes := [], index_exists := true }
        "doc:" [sampleChunk] [[1]] "a.txt").2.hashes
        = [] ++ redisBatch "doc:" [sampleChunk] [[1]] "a.txt" ∧
    (∀ i, i < [sampleChunk].length →
      ∃ c e, [sampleChunk][i]? = some c ∧ [[(1 : ℝ)]][i]? = some e ∧
        (RedisVectorStore.store_embeddings { hashes := [], index_exists := true }
            "doc:" [sampleChunk] [[1]] "a.txt").1[i]?
            = some (redisKey "doc:" "a.txt" c.chunk_index i) ∧
        (redisBatch "doc:" [sampleChunk] [[1]] "a.txt")[i]?
            = some (mkRedisDoc "doc:" "a.txt" c e i)) :=
  store_embeddings_aligned_ids [sampleChunk] [[1]] "a.txt" "doc:"
    { collection := [], next_oid := 7 } { hashes := [], index_exists := true }
    (by simp) (by simp) (by simp [redisBatch]) (by simp)

/-- Claim C1: cross-backend ranking agreement.  For a corpus stored with
the same underlying content in both backends, no file-type filtering and
no score ties, both backends return results in the same rank order with
identical similarity scores: the Redis adapter's `1 - distance` conversion
of the engine's cosine distance recovers exactly the exact-scan backend's
cosine similarity, and the engine's distance-ascending order is the
exact-scan backend's similarity-descending order. -/
theorem cross_backend_ranking_agreement (q : List ℝ) (k : Nat)
    (mdocs : List MongoDoc) (rdocs : List RedisDoc)
    (hsame : rdocs.map redisDocCore = mdocs.map mongoDocCore)
    (hnoties : (mdocs.map (fun d => cosineSim q d.embedding)).Pairwise
        (fun a b => a ≠ b)) :
    (RedisVectorStore.search_docs q k none rdocs).map resultProjection
        = (MongoVectorStore.search_docs q k none mdocs).map resultProjection := by
  by_cases hemp : mdocs.isEmpty
  · have hm : mdocs = [] := List.isEmpty_iff.mp hemp
    subst hm
    have hr : rdocs = [] := by
      have hlen := congrArg List.length hsame
      simp only [List.length_map, List.length_nil] at hlen
      exact List.eq_nil_of_length_eq_zero hlen
    subst hr
    simp [MongoVectorStore.search_docs, RedisVectorStore.search_docs,
      redisKnnSearch, redisFilter, mongoFilter]
  · have hemp' : mdocs.isEmpty = false := by
      cases hval : mdocs.isEmpty
      · rfl
      · exact absurd hval hemp
    have h₁ := List.map_insertionSort (mongoRank q) simDesc (mongoResult q) mdocs
      (fun a _ b _ => Iff.rfl)
    have h₂ := List.map_insertionSort (mongoRank q) (coreRank q) mongoDocCore mdocs
      (fun a _ b _ => Iff.rfl)
    have h₃ := List.map_insertionSort (redisRank q) distAsc
      (fun d => RedisHit.mk d (1 - cosineSim q d.embedding)) rdocs
      (fun a _ b _ => by
        simpa [redisRank, distAsc] using (sub_le_sub_iff_left (1 : ℝ)).symm)
    have h₄ := List.map_insertionSort (redisRank q) (coreRank q) redisDocCore rdocs
      (fun a _ b _ => Iff.rfl)
    have hcompR : (resultProjection ∘ redisHitResult) ∘
        (fun d => RedisHit.mk d (1 - cosineSim q d.embedding))
        = coreProj q ∘ redisDocCore := by
      funext d
      simp [resultProjection, redisHitResult, coreProj, redisDocCore,
        sub_sub_cancel]
    have hcompM : resultProjection ∘ mongoResult q = coreProj q ∘ mongoDocCore := by
      funext d
      rfl
    have hlhs : (RedisVectorStore.search_docs q k none rdocs).map resultProjection
        = (((rdocs.map redisDocCore).insertionSort (coreRank q)).take k).map
            (coreProj q) := by
      simp only [RedisVectorStore.search_docs, redisKnnSearch, redisFilter]
      rw [← h₃, ← List.map_take, List.map_map, List.map_map, hcompR,
        ← List.map_map, List.map_take, h₄]
    have hrhs : (MongoVectorStore.search_docs q k none mdocs).map resultProjection
        = (((mdocs.map mongoDocCore).insertionSort (coreRank q)).take k).map
            (coreProj q) := by
      simp only [MongoVectorStore.search_docs, mongoFilter, hemp',
        Bool.false_eq_true, if_false]
      rw [← h₁, ← List.map_take, List.map_map, hcompM,
        ← List.map_map, List.map_take, h₂]
    rw [hlhs, hrhs, hsame]

/-- Witness for C1 at a concrete matched one-document corpus. -/
theorem cross_backend_ranking_agreement_witness :
    (RedisVectorStore.search_docs [1] 1 none [sampleRedisDoc]).map resultProjection
        = (MongoVectorStore.search_docs [1] 1 none [sampleMongoDoc]).map
            resultProjection :=
  cross_backend_ranking_agreement [1] 1 [sampleMongoDoc] [sampleRedisDoc] rfl
    (by simp)

end Vectorizer
